import Mathlib

/-!
Verification of the unsubscribe job orchestration engine of the
gmail-unsubscribe repository: a shallow embedding of `src/jobs.py`
(JobStore), the lane dispatcher / fallback executor / orchestrator of
`src/app.py` (`run_mass_unsubscribe_job`, `retry_job`), and the retrying
one-click HTTP strategy of `src/gmail_client.py`
(`async_one_click_unsubscribe`), together with proofs about them.

Item and job statuses are kept as the literal strings the Python code
compares against. Machine-level SQLite integers are modelled as `Int`
where the code can decrement them, `Nat` elsewhere. Network and browser
effects are modelled by explicit outcome environments passed to the pure
run function.
-/

namespace GmailUnsub

/-- Python truthiness of an optional string: `None` and the empty string
are falsy, every other string is truthy. -/
def truthy : Option String → Bool
  | none => false
  | some s => s ≠ ""

/-- `s.startswith('http')` from `run_mass_unsubscribe_job`, stated on
the character list so that it evaluates inside the kernel. -/
def startsWithHttp (s : String) : Bool := "http".data.isPrefixOf s.data

/-- A row of the `job_items` table (dataclass `JobItem` in `src/jobs.py`). -/
structure JobItem where
  itemId : Nat
  jobId : String
  sender : String
  senderEmail : String
  unsubscribe_url : Option String
  unsubscribe_mailto : Option String
  method_attempted : Option String
  status : String
  error_message : Option String
  attempted_at : Option String
  retry_count : Nat
  deriving Repr, DecidableEq

/-- A row of the `jobs` table (dataclass `Job` in `src/jobs.py`).
Counters are `Int` because `reset_failed_items` subtracts from
`completed_items` with no lower bound. -/
structure Job where
  id : String
  status : String
  created_at : String
  started_at : Option String
  completed_at : Option String
  total_items : Nat
  completed_items : Int
  successful_items : Int
  failed_items : Int
  deriving Repr, DecidableEq

/-- One job together with its item rows: the slice of the database a
single job owns. -/
structure JobState where
  job : Job
  items : List JobItem
  deriving Repr, DecidableEq

/-- Number of items currently carrying status `s`. -/
def countStatus (s : String) (l : List JobItem) : Nat :=
  (l.filter (fun it => it.status == s)).length

/-- The item identifiers of a row list. -/
def itemIds (l : List JobItem) : List Nat := l.map (fun it => it.itemId)

/-- An input record for `create_job` (the dicts built by the
`/unsubscribe` route; `create_job` reads only sender, sender_email, url
and mailto — the one_click key is dropped). -/
structure NewItem where
  sender : String
  senderEmail : String
  url : Option String
  mailto : Option String
  deriving Repr, DecidableEq

/-- One inserted `job_items` row, as `create_job` builds it: status
pending, no attempt recorded, retry_count 0. `rowid` is the SQLite row
identifier. -/
def mkJobItem (jobId : String) (rowid : Nat) (d : NewItem) : JobItem :=
  { itemId := rowid
    jobId := jobId
    sender := d.sender
    senderEmail := d.senderEmail
    unsubscribe_url := d.url
    unsubscribe_mailto := d.mailto
    method_attempted := none
    status := "pending"
    error_message := none
    attempted_at := none
    retry_count := 0 }

/-- Modelled from the spec: the `jobs` and `job_items` table schemas are
not under `src/` (`init_db` in `src/database.py` creates only the
`emails` table), so the SQLite rowids assigned by the insertion loop of
`create_job` are modelled as consecutive integers — insertion order,
each row getting a fresh identifier unique within the store. -/
def mkJobItems (jobId : String) : Nat → List NewItem → List JobItem
  | _, [] => []
  | n, d :: rest => mkJobItem jobId n d :: mkJobItems jobId (n + 1) rest

/-- Modelled from the spec: the `jobs` table schema is not under `src/`;
`create_job` inserts only id, status, created_at and total_items, the
remaining columns taking their schema defaults. Per the spec's data
model and createJob contract, a fresh job has no start or completion
time and all three progress counters zero. -/
def mkJobRow (jobId now : String) (total : Nat) : Job :=
  { id := jobId
    status := "pending"
    created_at := now
    started_at := none
    completed_at := none
    total_items := total
    completed_items := 0
    successful_items := 0
    failed_items := 0 }

/-- `JobManager.create_job` (src/jobs.py lines 57-86): inserts the job
row with status pending and `total_items = len(items)`, then one pending
item row per input. -/
def create_job (ds : List NewItem) (jobId now : String) : JobState :=
  { job := mkJobRow jobId now ds.length
    items := mkJobItems jobId 1 ds }

/-- `JobManager.start_job` (src/jobs.py lines 166-174): unconditionally
sets status running and started_at. -/
def start_job (now : String) (st : JobState) : JobState :=
  { st with job := { st.job with status := "running", started_at := some now } }

/-- `JobManager.complete_job` (src/jobs.py lines 218-226): sets the given
terminal status and completed_at. -/
def complete_job (status now : String) (st : JobState) : JobState :=
  { st with job := { st.job with status := status, completed_at := some now } }

/-- The arguments of one `update_item` call. -/
structure UpdateCall where
  itemId : Nat
  status : String
  method : String
  errorMessage : Option String
  deriving Repr, DecidableEq

/-- The per-row effect of the `UPDATE job_items SET ...` statement in
`update_item`. -/
def applyUpd (u : UpdateCall) (now : String) (it : JobItem) : JobItem :=
  { it with
    status := u.status
    method_attempted := some u.method
    error_message := u.errorMessage
    attempted_at := some now }

/-- `UPDATE ... WHERE id = ?`: rewrite every row whose id matches. -/
def setItem (iid : Nat) (g : JobItem → JobItem) (l : List JobItem) : List JobItem :=
  l.map (fun it => if it.itemId == iid then g it else it)

/-- `JobManager.update_item` (src/jobs.py lines 176-216): writes the
item's terminal fields, then — when a row with that id exists — bumps the
owning job's counters: status success increments completed and successful,
status failed increments completed and failed, any other status leaves
the counters alone. -/
def update_item (u : UpdateCall) (now : String) (st : JobState) : JobState :=
  let items' := setItem u.itemId (applyUpd u now) st.items
  let job' :=
    if st.items.any (fun it => it.itemId == u.itemId) then
      if u.status = "success" then
        { st.job with
          completed_items := st.job.completed_items + 1
          successful_items := st.job.successful_items + 1 }
      else if u.status = "failed" then
        { st.job with
          completed_items := st.job.completed_items + 1
          failed_items := st.job.failed_items + 1 }
      else st.job
    else st.job
  { job := job', items := items' }

/-- `SELECT * FROM job_items WHERE job_id = ? AND status = 'pending'`
(`get_pending_items`, src/jobs.py lines 228-254). -/
def pendingItems (st : JobState) : List JobItem :=
  st.items.filter (fun it => it.status == "pending")

/-- The per-row effect of the bulk `UPDATE` in `reset_failed_items`. -/
def resetOne (it : JobItem) : JobItem :=
  if it.status == "failed" then
    { it with status := "pending", retry_count := it.retry_count + 1 }
  else it

/-- `JobManager.reset_failed_items` (src/jobs.py lines 284-305): flips
every failed item of the job to pending with retry_count + 1 (`count` is
the SQL rowcount of that update), then rewrites the job row: status
pending, completed_items decremented by `count`, failed_items set to 0,
completed_at cleared. Returns the count and the new state. -/
def reset_failed_items (st : JobState) : Nat × JobState :=
  let count := countStatus "failed" st.items
  ( count
  , { job :=
        { st.job with
          status := "pending"
          completed_items := st.job.completed_items - count
          failed_items := 0
          completed_at := none }
      items := st.items.map resetOne } )

/-- One entry of the `results` list of a status snapshot. -/
structure SnapEntry where
  sender : String
  success : Bool
  method : String
  message : String
  deriving Repr, DecidableEq

/-- The status snapshot returned by `get_job_status`. `job_id = none`
models the dictionary without a job_id key. -/
structure Snapshot where
  running : Bool
  progress : Int
  total : Nat
  results : List SnapEntry
  job_id : Option String
  deriving Repr, DecidableEq

/-- Python `x or d` on an optional string field: the fallback is used
when the field is absent or empty. -/
def orDefault (o : Option String) (d : String) : String :=
  match o with
  | none => d
  | some s => if s == "" then d else s

/-- `JobManager.get_job` restricted to the store of one job list:
`SELECT * FROM jobs WHERE id = ?`, returning the job graph or nothing. -/
def get_job (store : List JobState) (jobId : String) : Option JobState :=
  store.find? (fun s => s.job.id == jobId)

/-- `JobManager.get_job_status` (src/jobs.py lines 319-342): a missing
job yields the fixed empty snapshot with no job_id key; otherwise the
snapshot is projected from the persisted job and its terminal items. -/
def get_job_status (store : List JobState) (jobId : String) : Snapshot :=
  match get_job store jobId with
  | none => { running := false, progress := 0, total := 0, results := [], job_id := none }
  | some st =>
      { running := st.job.status == "running"
        progress := st.job.completed_items
        total := st.job.total_items
        results :=
          (st.items.filter (fun it => it.status == "success" || it.status == "failed")).map
            (fun it =>
              { sender := it.sender
                success := it.status == "success"
                method := orDefault it.method_attempted "pending"
                message := orDefault it.error_message
                    (if it.status == "success" then "Done" else "") })
        job_id := some st.job.id }

/-! ## Lane dispatcher (src/app.py, run_mass_unsubscribe_job lines 541-557) -/

/-- `bool(item.unsubscribe_url and item.unsubscribe_url.startswith('http'))`:
the recomputed one_click flag of a job item. -/
def oneClickFlag (url : Option String) : Bool :=
  truthy url && startsWithHttp (url.getD "")

/-- The three execution lanes. -/
inductive Lane where
  | oneClick
  | browser
  | mailtoOnly
  deriving Repr, DecidableEq

/-- Lane classification of one pending item, mirroring the three list
comprehensions over `items_to_process`: one_click items, then items with
a URL but no one_click flag, then items with no URL but a mailto.
Items with neither are in no lane. -/
def laneOf (it : JobItem) : Option Lane :=
  if oneClickFlag it.unsubscribe_url then some Lane.oneClick
  else if truthy it.unsubscribe_url then some Lane.browser
  else if truthy it.unsubscribe_mailto then some Lane.mailtoOnly
  else none

/-! ## Fallback executor (src/app.py lines 562-647) -/

/-- One entry of the in-memory results list. -/
structure ResultEntry where
  sender : String
  success : Bool
  method : String
  message : String
  deriving Repr, DecidableEq

/-- The common tail of the three per-item process functions: compute
`status = "success" if success else "failed"`, issue the single
`update_item(item_id, status, method, None if success else message)`
call, and return the result dictionary. -/
def recordResult (sender : String) (iid : Nat) (method : String)
    (success : Bool) (message : String) : UpdateCall × ResultEntry :=
  ( { itemId := iid, status := if success then "success" else "failed"
      method := method
      errorMessage := if success then none else some message }
  , { sender := sender, success := success, method := method, message := message } )

/-- `process_one_click_item` (src/app.py lines 562-590) after its
strategy calls have returned: `prim` is the (success, message) pair of
`async_one_click_unsubscribe`, `mres` of `send_unsubscribe_email`. When
the primary failed and a mailto exists, a successful mailto rewrites
success/message/method, a failed one appends to the message. -/
def oneClickFallback (sender : String) (iid : Nat) (mailto : Option String)
    (prim mres : Bool × String) : UpdateCall × ResultEntry :=
  if !prim.1 && truthy mailto then
    if mres.1 then recordResult sender iid "mailto" true mres.2
    else recordResult sender iid "one-click" false (prim.2 ++ " (mailto also failed)")
  else recordResult sender iid "one-click" prim.1 prim.2

/-- `process_browser_item` (src/app.py lines 592-626) after its strategy
calls have returned: `prim` is the (success, message) pair of
`browser_unsubscribe_worker`, `mres` of `send_unsubscribe_email`. Unlike
the one-click lane, a failed mailto fallback leaves the browser message
untouched. -/
def browserFallback (sender : String) (iid : Nat) (mailto : Option String)
    (prim mres : Bool × String) : UpdateCall × ResultEntry :=
  if !prim.1 && truthy mailto then
    if mres.1 then recordResult sender iid "mailto" true mres.2
    else recordResult sender iid "browser" false prim.2
  else recordResult sender iid "browser" prim.1 prim.2

/-- `process_mailto_item` (src/app.py lines 628-647): the mailto send is
itself the primary strategy; there is no fallback. -/
def mailtoExec (sender : String) (iid : Nat) (prim : Bool × String) :
    UpdateCall × ResultEntry :=
  recordResult sender iid "mailto" prim.1 prim.2

/-! ## Orchestrator (src/app.py, run_mass_unsubscribe_job lines 509-689)

The strategy outcomes for one item are supplied by an environment:
`fault = some d` models the item's task raising an unexpected exception
with description `d` before its database write lands (caught by
`asyncio.gather(..., return_exceptions=True)`); otherwise `prim` is the
outcome of the lane's primary strategy and `mres` the outcome of a
mailto fallback attempt, were one made. -/

structure ItemEnv where
  fault : Option String
  prim : Bool × String
  mres : Bool × String

/-- The task spawned for one classified item: either it raises (`.error`)
or it completes with exactly one `update_item` call and a result entry. -/
def runItemTask (lane : Lane) (it : JobItem) (e : ItemEnv) :
    Except String (UpdateCall × ResultEntry) :=
  match e.fault with
  | some d => .error d
  | none =>
      .ok (match lane with
        | .oneClick => oneClickFallback it.sender it.itemId it.unsubscribe_mailto e.prim e.mres
        | .browser => browserFallback it.sender it.itemId it.unsubscribe_mailto e.prim e.mres
        | .mailtoOnly => mailtoExec it.sender it.itemId e.prim)

/-- Membership test of `one_click_items` (line 555). -/
def ocp (it : JobItem) : Bool := oneClickFlag it.unsubscribe_url

/-- Membership test of `browser_items` (line 556). -/
def brp (it : JobItem) : Bool :=
  !oneClickFlag it.unsubscribe_url && truthy it.unsubscribe_url

/-- Membership test of `mailto_only_items` (line 557). -/
def mop (it : JobItem) : Bool :=
  !oneClickFlag it.unsubscribe_url && !truthy it.unsubscribe_url &&
    truthy it.unsubscribe_mailto

/-- `one_click_items` (line 555). -/
def ocLane (l : List JobItem) : List JobItem := l.filter ocp

/-- `browser_items` (line 556). -/
def brLane (l : List JobItem) : List JobItem := l.filter brp

/-- `mailto_only_items` (line 557). -/
def moLane (l : List JobItem) : List JobItem := l.filter mop

/-- `all_tasks` (lines 650-660): one-click tasks, then browser tasks,
then mailto-only tasks, over the job's pending items. -/
def runTasks (st : JobState) (env : Nat → ItemEnv) :
    List (Except String (UpdateCall × ResultEntry)) :=
  let p := pendingItems st
  (ocLane p).map (fun it => runItemTask .oneClick it (env it.itemId)) ++
    (brLane p).map (fun it => runItemTask .browser it (env it.itemId)) ++
    (moLane p).map (fun it => runItemTask .mailtoOnly it (env it.itemId))

/-- The database write of a task, if its task did not raise. -/
def taskUpd : Except String (UpdateCall × ResultEntry) → Option UpdateCall
  | .ok x => some x.1
  | .error _ => none

/-- The `update_item` calls a run issues: one per task that did not raise. -/
def runUpdates (st : JobState) (env : Nat → ItemEnv) : List UpdateCall :=
  (runTasks st env).filterMap taskUpd

/-- The result entry a task contributes to `final_results` (lines
666-676): a raised task is converted to a failed entry with sender
Unknown, method error, and the first 50 characters of the exception
text. -/
def taskEntry : Except String (UpdateCall × ResultEntry) → ResultEntry
  | .ok x => x.2
  | .error d =>
      { sender := "Unknown", success := false, method := "error", message := d.take 50 }

/-- `final_results` (lines 666-676). -/
def runResults (st : JobState) (env : Nat → ItemEnv) : List ResultEntry :=
  (runTasks st env).map taskEntry

/-- Apply a list of `update_item` calls in order. The tasks of a run
execute concurrently, but each touches a distinct item row and the
counter increments commute, so any serialization order yields the same
final state; the task-list order is used. -/
def applyUpdates (us : List UpdateCall) (now : String) (st : JobState) : JobState :=
  us.foldl (fun s u => update_item u now s) st

/-- `run_mass_unsubscribe_job` without a whole-run fault (src/app.py
lines 509-689): mark the job running, process every pending item through
its lane, apply every surviving database write, then mark the job
completed. (The early return on an empty pending list completes the job
immediately, which coincides with running zero tasks.) -/
def runJob (st : JobState) (env : Nat → ItemEnv) (tStart tUpd tEnd : String) : JobState :=
  complete_job "completed" tEnd
    (applyUpdates (runUpdates st env) tUpd (start_job tStart st))

/-! ## Retry endpoint (src/app.py, retry_job lines 824-842) -/

/-- The HTTP-level outcome of `POST /api/jobs/id/retry`. -/
inductive RetryResp where
  | notFound
  | conflict
  | noItems
  | retrying (count : Nat)
  deriving Repr, DecidableEq

/-- `retry_job`, given the looked-up job: 404 when absent; 400 conflict
when already running (no state change, no run); otherwise
`reset_failed_items` runs first, and only then the count is inspected —
zero means `retried = 0` and no run, nonzero schedules a fresh run. The
returned triple is (response, persisted state, whether a run was
scheduled). -/
def retry_job (j : Option JobState) : RetryResp × Option JobState × Bool :=
  match j with
  | none => (.notFound, none, false)
  | some st =>
      if st.job.status = "running" then (.conflict, some st, false)
      else
        let r := reset_failed_items st
        if r.1 = 0 then (.noItems, some r.2, false)
        else (.retrying r.1, some r.2, true)

/-! ## Async one-click HTTP strategy
(src/gmail_client.py, async_one_click_unsubscribe lines 104-165) -/

/-- What one HTTP attempt observes: a status code, a timeout
(`httpx.TimeoutException`), or a transport fault (`httpx.RequestError`)
with its text. -/
inductive AttemptOut where
  | status (n : Nat)
  | timeout
  | netError (msg : String)
  deriving Repr, DecidableEq

/-- What one loop iteration of `async_one_click_unsubscribe` decides:
`.ok` is an immediate return (HTTP 200/202/204, the five redirect codes,
or a non-retried sub-500 status), `.error e` is a transient outcome
(5xx, timeout, transport fault) that sets `last_error := e` and retries
when attempts remain. -/
def attemptDecision : AttemptOut → Except String (Bool × String)
  | .status n =>
      if n = 200 ∨ n = 202 ∨ n = 204 then
        .ok (true, "Success (HTTP " ++ toString n ++ ")")
      else if n = 301 ∨ n = 302 ∨ n = 303 ∨ n = 307 ∨ n = 308 then
        .ok (true, "Success (redirected)")
      else if 500 ≤ n then .error ("HTTP " ++ toString n)
      else .ok (false, "HTTP " ++ toString n)
  | .timeout => .error "Timeout"
  | .netError m => .error (m.take 50)

/-- The retry loop of `async_one_click_unsubscribe`. `att i` is what
attempt number `i` observes; the last argument is
`max_retries - attempt`, the retries still allowed, so the loop's
`attempt < max_retries` test is its being nonzero. Returns the
(success, message) pair and the list of backoff sleeps performed, each
`1.5 ^ attempt` seconds; a transient outcome on the final attempt
returns failure with that attempt's error as `last_error`. -/
def oneClickGo (att : Nat → AttemptOut) (attempt : Nat) :
    Nat → (Bool × String) × List ℚ
  | 0 =>
      (match attemptDecision (att attempt) with
        | .ok res => res
        | .error e => (false, e), [])
  | r + 1 =>
      match attemptDecision (att attempt) with
      | .ok res => (res, [])
      | .error _ =>
          let res := oneClickGo att (attempt + 1) r
          (res.1, ((3 / 2 : ℚ) ^ attempt) :: res.2)

/-- `async_one_click_unsubscribe` with its default arguments:
max_retries 2 and backoff factor 1.5, so attempt 0 starts with 2
retries remaining. -/
def async_one_click_unsubscribe (att : Nat → AttemptOut) : (Bool × String) × List ℚ :=
  oneClickGo att 0 2

/-- The row with a given id, as `SELECT ... WHERE id = ?` finds it. -/
def findItem (l : List JobItem) (i : Nat) : Option JobItem :=
  l.find? (fun it => it.itemId == i)

/-- The status of the row with id `i`, if present. -/
def getStatus (st : JobState) (i : Nat) : Option String :=
  (findItem st.items i).map (fun it => it.status)

/-- The strengthened store invariant: item ids are unique and each of the
three job counters equals the corresponding count over the item rows. -/
def InvFull (st : JobState) : Prop :=
  (itemIds st.items).Nodup ∧
  st.job.successful_items = (countStatus "success" st.items : Int) ∧
  st.job.failed_items = (countStatus "failed" st.items : Int) ∧
  st.job.completed_items =
    (countStatus "success" st.items : Int) + (countStatus "failed" st.items : Int)

/-- The states a job's slice of the store passes through under the
engine's own operations: created by `create_job`, then any interleaving
of `start_job`, `complete_job`, `reset_failed_items`, and the
`update_item` calls the run pipeline issues — one terminal write
(status success or failed) against an item that is currently pending. -/
inductive Reach (ds : List NewItem) (jobId t0 : String) : JobState → Prop where
  | init : Reach ds jobId t0 (create_job ds jobId t0)
  | start (st : JobState) (now : String) :
      Reach ds jobId t0 st → Reach ds jobId t0 (start_job now st)
  | update (st : JobState) (u : UpdateCall) (now : String) (it : JobItem) :
      Reach ds jobId t0 st → it ∈ st.items → it.itemId = u.itemId →
      it.status = "pending" → (u.status = "success" ∨ u.status = "failed") →
      Reach ds jobId t0 (update_item u now st)
  | complete (st : JobState) (s now : String) :
      Reach ds jobId t0 st → Reach ds jobId t0 (complete_job s now st)
  | reset (st : JobState) :
      Reach ds jobId t0 st → Reach ds jobId t0 (reset_failed_items st).2

/-- Transient outcomes of one HTTP attempt: a 5xx status, a timeout, or
a transport fault — exactly the cases the loop retries. -/
def transientOut : AttemptOut → Prop
  | .status n => 500 ≤ n
  | .timeout => True
  | .netError _ => True

/-- The last_error text an attempt leaves behind. -/
def errOf : AttemptOut → String
  | .status n => "HTTP " ++ toString n
  | .timeout => "Timeout"
  | .netError m => m.take 50

/-! ## Shared concrete instances -/

/-- A pending item with a one-click-capable https URL and no mailto. -/
def cexItem : JobItem :=
  { itemId := 1, jobId := "j", sender := "a", senderEmail := "a@x"
    unsubscribe_url := some "https://u.example/x", unsubscribe_mailto := none
    method_attempted := none, status := "pending", error_message := none
    attempted_at := none, retry_count := 0 }

/-- A one-item job about to run. -/
def cexSt : JobState := { job := mkJobRow "j" "t0" 1, items := [cexItem] }

/-- An environment whose every task raises. -/
def cexEnvFault : Nat → ItemEnv :=
  fun _ => { fault := some "boom", prim := (false, ""), mres := (false, "") }

/-- A completed job with one successful item and no failed items. -/
def cexDoneSt : JobState :=
  { job :=
      { id := "j", status := "completed", created_at := "t0"
        started_at := some "t1", completed_at := some "t2"
        total_items := 1, completed_items := 1, successful_items := 1
        failed_items := 0 }
    items :=
      [{ itemId := 1, jobId := "j", sender := "a", senderEmail := "a@x"
         unsubscribe_url := some "https://u.example/x", unsubscribe_mailto := none
         method_attempted := some "one-click", status := "success"
         error_message := none, attempted_at := some "t1", retry_count := 0 }] }

/-! ## Claim statements taken from the specification -/

/-- Claim C2 as the spec states it: lane membership decided by an
http(s) URL plus a one-click capability flag. -/
def claimC2 : Prop :=
  ∀ (it : JobItem) (capable : Bool),
    (laneOf it = some Lane.oneClick ↔
      (oneClickFlag it.unsubscribe_url = true ∧ capable = true)) ∧
    (laneOf it = some Lane.browser ↔
      (oneClickFlag it.unsubscribe_url = true ∧ capable = false)) ∧
    (laneOf it = some Lane.mailtoOnly ↔
      (oneClickFlag it.unsubscribe_url = false ∧ truthy it.unsubscribe_mailto = true))

/-- Claim C3 as the spec states it: the fallback cascade's recorded
result for each of the four outcome cases, identical for the one-click
and browser lanes, with the failure suffix appended in both. -/
def claimC3 : Prop :=
  ∀ (sender : String) (iid : Nat) (mailto : Option String) (prim mres : Bool × String),
    (prim.1 = true →
      (oneClickFallback sender iid mailto prim mres).2 = ⟨sender, true, "one-click", prim.2⟩ ∧
      (browserFallback sender iid mailto prim mres).2 = ⟨sender, true, "browser", prim.2⟩) ∧
    (prim.1 = false → truthy mailto = true → mres.1 = true →
      (oneClickFallback sender iid mailto prim mres).2 = ⟨sender, true, "mailto", mres.2⟩ ∧
      (browserFallback sender iid mailto prim mres).2 = ⟨sender, true, "mailto", mres.2⟩) ∧
    (prim.1 = false → truthy mailto = true → mres.1 = false →
      (oneClickFallback sender iid mailto prim mres).2 =
        ⟨sender, false, "one-click", prim.2 ++ " (mailto also failed)"⟩ ∧
      (browserFallback sender iid mailto prim mres).2 =
        ⟨sender, false, "browser", prim.2 ++ " (mailto also failed)"⟩) ∧
    (prim.1 = false → truthy mailto = false →
      (oneClickFallback sender iid mailto prim mres).2 = ⟨sender, false, "one-click", prim.2⟩ ∧
      (browserFallback sender iid mailto prim mres).2 = ⟨sender, false, "browser", prim.2⟩)

/-- Claim C4 as the spec states it: on a non-running job with zero
failed items, retry reports zero, starts no run, and leaves status,
completed_at and all counters unchanged. -/
def claimC4 : Prop :=
  ∀ st : JobState, st.job.status ≠ "running" → countStatus "failed" st.items = 0 →
    (retry_job (some st)).1 = RetryResp.noItems ∧
    (retry_job (some st)).2.2 = false ∧
    ((retry_job (some st)).2.1.map (fun s => s.job.status)) = some st.job.status ∧
    ((retry_job (some st)).2.1.map (fun s => s.job.completed_at)) = some st.job.completed_at ∧
    ((retry_job (some st)).2.1.map (fun s => s.job.completed_items)) = some st.job.completed_items ∧
    ((retry_job (some st)).2.1.map (fun s => s.job.successful_items)) = some st.job.successful_items ∧
    ((retry_job (some st)).2.1.map (fun s => s.job.failed_items)) = some st.job.failed_items

/-- Terminal-or-pending outcome of one item after a run, claim C6 as the
spec states it: job completed, classified items (http URL or mailto)
terminal, items with neither URL nor mailto still pending. -/
def claimC6 : Prop :=
  ∀ (st : JobState) (env : Nat → ItemEnv) (t1 t2 t3 : String),
    (itemIds st.items).Nodup →
    (runJob st env t1 t2 t3).job.status = "completed" ∧
    (∀ it ∈ st.items, it.status = "pending" →
      (oneClickFlag it.unsubscribe_url = true ∨ truthy it.unsubscribe_mailto = true) →
      (getStatus (runJob st env t1 t2 t3) it.itemId = some "success" ∨
        getStatus (runJob st env t1 t2 t3) it.itemId = some "failed")) ∧
    (∀ it ∈ st.items, it.status = "pending" →
      truthy it.unsubscribe_url = false → truthy it.unsubscribe_mailto = false →
      getStatus (runJob st env t1 t2 t3) it.itemId = some "pending")

/-- Claim C7 as the spec states it: every classified pending item gets
exactly one database write, and a raising task is converted to an
Unknown/error entry in the results. -/
def claimC7 : Prop :=
  ∀ (st : JobState) (env : Nat → ItemEnv),
    (itemIds st.items).Nodup →
    ∀ it ∈ st.items, it.status = "pending" → laneOf it ≠ none →
      (runUpdates st env).countP (fun u => u.itemId == it.itemId) = 1 ∧
      (∀ d, (env it.itemId).fault = some d →
        ({ sender := "Unknown", success := false, method := "error",
           message := d.take 50 } : ResultEntry) ∈ runResults st env)

/-- Claim C9's success set as the spec states it: 200, 202, 204 or any
3xx status means success on a first decisive attempt. -/
def claimC9 : Prop :=
  ∀ n : Nat, 300 ≤ n → n ≤ 399 →
    ∀ att : Nat → AttemptOut, att 0 = AttemptOut.status n →
      (async_one_click_unsubscribe att).1.1 = true

/-- An environment whose one-click attempt succeeds and that never
raises. -/
def cexEnvOk : Nat → ItemEnv :=
  fun _ => { fault := none, prim := (true, "Success (HTTP 200)"), mres := (false, "") }

/-! ## Counting and update lemmas -/

theorem countStatus_nil (s : String) : countStatus s [] = 0 := rfl

theorem countStatus_cons (s : String) (it : JobItem) (l : List JobItem) :
    countStatus s (it :: l) =
      (if it.status == s then 1 else 0) + countStatus s l := by
  simp only [countStatus, List.filter_cons]
  by_cases h : it.status == s <;> simp [h, Nat.add_comm]

theorem countStatus_eq_zero {s : String} {l : List JobItem}
    (h : ∀ it ∈ l, it.status ≠ s) : countStatus s l = 0 := by
  induction l with
  | nil => rfl
  | cons a l ih =>
      rw [countStatus_cons]
      have ha : a.status ≠ s := h a (List.mem_cons_self a l)
      have : (a.status == s) = false := by simpa using ha
      rw [this]
      simp [ih fun it hit => h it (List.mem_cons_of_mem a hit)]

theorem mkJobItems_status {j : String} :
    ∀ (l : List NewItem) (n : Nat), ∀ it ∈ mkJobItems j n l, it.status = "pending" := by
  intro l
  induction l with
  | nil => intro n it h; simp [mkJobItems] at h
  | cons d rest ih =>
      intro n it h
      simp only [mkJobItems, List.mem_cons] at h
      rcases h with h | h
      · subst h; rfl
      · exact ih (n + 1) it h

theorem mkJobItems_id_ge {j : String} :
    ∀ (l : List NewItem) (n : Nat), ∀ it ∈ mkJobItems j n l, n ≤ it.itemId := by
  intro l
  induction l with
  | nil => intro n it h; simp [mkJobItems] at h
  | cons d rest ih =>
      intro n it h
      simp only [mkJobItems, List.mem_cons] at h
      rcases h with h | h
      · subst h; simp [mkJobItem]
      · exact Nat.le_of_succ_le (ih (n + 1) it h)

theorem mkJobItems_nodup {j : String} :
    ∀ (l : List NewItem) (n : Nat), (itemIds (mkJobItems j n l)).Nodup := by
  intro l
  induction l with
  | nil => intro n; simp [mkJobItems, itemIds]
  | cons d rest ih =>
      intro n
      simp only [mkJobItems, itemIds, List.map_cons, List.nodup_cons]
      refine ⟨?_, ih (n + 1)⟩
      intro hmem
      rcases List.mem_map.mp hmem with ⟨it, hit, hid⟩
      have := mkJobItems_id_ge rest (n + 1) it hit
      simp [mkJobItem] at hid
      omega

theorem setItem_ids {i : Nat} {g : JobItem → JobItem}
    (hg : ∀ x, (g x).itemId = x.itemId) (l : List JobItem) :
    itemIds (setItem i g l) = itemIds l := by
  simp only [itemIds, setItem, List.map_map]
  refine List.map_congr_left ?_
  intro x _
  by_cases h : x.itemId = i <;> simp [h, hg]

theorem setItem_eq_of_not_mem {i : Nat} {g : JobItem → JobItem} {l : List JobItem}
    (h : ∀ x ∈ l, x.itemId ≠ i) : setItem i g l = l := by
  induction l with
  | nil => rfl
  | cons a l ih =>
      have ha : (a.itemId == i) = false := by
        simpa using h a (List.mem_cons_self a l)
      have ih' : List.map (fun x => if x.itemId == i then g x else x) l = l := by
        simpa [setItem] using ih fun x hx => h x (List.mem_cons_of_mem a hx)
      simp only [setItem, List.map_cons, ha, Bool.false_eq_true, if_false, ih']

/-- Rewriting the unique row with id `i` changes each status count by
the row's own contribution, stated additively. -/
theorem countStatus_setItem {l : List JobItem} {it : JobItem} {i : Nat}
    (g : JobItem → JobItem) (s : String)
    (hnd : (itemIds l).Nodup) (hmem : it ∈ l) (hid : it.itemId = i) :
    countStatus s (setItem i g l) + (if it.status == s then 1 else 0) =
      countStatus s l + (if (g it).status == s then 1 else 0) := by
  induction l with
  | nil => cases hmem
  | cons a l ih =>
      simp only [itemIds, List.map_cons, List.nodup_cons] at hnd
      obtain ⟨hna, hnl⟩ := hnd
      by_cases hai : a.itemId = i
      · have hit : it = a := by
          rcases List.mem_cons.mp hmem with h | h
          · exact h
          · exact absurd (hai ▸ hid ▸ List.mem_map_of_mem (fun x => x.itemId) h) hna
        subst hit
        have hrest : List.map (fun x => if x.itemId == i then g x else x) l = l := by
          have hno := setItem_eq_of_not_mem (i := i) (g := g) (l := l)
            (fun x hx hc => hna (hai ▸ hc ▸ List.mem_map_of_mem (fun y => y.itemId) hx))
          simp only [setItem] at hno
          exact hno
        have hacond : (it.itemId == i) = true := by simp [hai]
        simp only [setItem, List.map_cons, hacond, if_true, hrest]
        rw [countStatus_cons, countStatus_cons]
        omega
      · have hit : it ∈ l := by
          rcases List.mem_cons.mp hmem with h | h
          · exact absurd (h ▸ hid) hai
          · exact h
        have hane : (a.itemId == i) = false := by simpa using hai
        simp only [setItem, List.map_cons, hane, Bool.false_eq_true, if_false]
        rw [countStatus_cons, countStatus_cons]
        have hrec := ih hnl hit
        simp only [setItem] at hrec
        omega

theorem resetOne_id (it : JobItem) : (resetOne it).itemId = it.itemId := by
  unfold resetOne
  by_cases h : it.status == "failed" <;> simp [h]

theorem countStatus_reset_failed (l : List JobItem) :
    countStatus "failed" (l.map resetOne) = 0 := by
  refine countStatus_eq_zero ?_
  intro it hit
  rcases List.mem_map.mp hit with ⟨x, _, hx⟩
  subst hx
  unfold resetOne
  by_cases h : x.status == "failed" <;> simp_all

theorem countStatus_reset_success (l : List JobItem) :
    countStatus "success" (l.map resetOne) = countStatus "success" l := by
  induction l with
  | nil => rfl
  | cons a l ih =>
      simp only [List.map_cons]
      rw [countStatus_cons, countStatus_cons, ih]
      unfold resetOne
      by_cases h : a.status == "failed" <;> simp_all

theorem reset_ids (l : List JobItem) : itemIds (l.map resetOne) = itemIds l := by
  simp only [itemIds, List.map_map]
  exact List.map_congr_left fun x _ => resetOne_id x

/-! ## The counter invariant (claim C1) -/

theorem invFull_create (ds : List NewItem) (jobId t0 : String) :
    InvFull (create_job ds jobId t0) := by
  refine ⟨mkJobItems_nodup ds 1, ?_, ?_, ?_⟩ <;>
    simp [create_job, mkJobRow,
      countStatus_eq_zero (s := "success") (l := mkJobItems jobId 1 ds)
        (fun it hit => by rw [mkJobItems_status ds 1 it hit]; decide),
      countStatus_eq_zero (s := "failed") (l := mkJobItems jobId 1 ds)
        (fun it hit => by rw [mkJobItems_status ds 1 it hit]; decide)]

theorem invFull_update {st : JobState} (u : UpdateCall) (now : String) {it : JobItem}
    (hinv : InvFull st) (hmem : it ∈ st.items) (hid : it.itemId = u.itemId)
    (hpend : it.status = "pending")
    (hterm : u.status = "success" ∨ u.status = "failed") :
    InvFull (update_item u now st) := by
  obtain ⟨hnd, hs, hf, hc⟩ := hinv
  have hany : st.items.any (fun x => x.itemId == u.itemId) = true := by
    exact List.any_eq_true.mpr ⟨it, hmem, by simp [hid]⟩
  have hids : (itemIds (setItem u.itemId (applyUpd u now) st.items)).Nodup := by
    rw [setItem_ids (g := applyUpd u now) (fun x => rfl)]; exact hnd
  have hcs := countStatus_setItem (applyUpd u now) "success" hnd hmem hid
  have hcf := countStatus_setItem (applyUpd u now) "failed" hnd hmem hid
  have hps : (it.status == "success") = false := by rw [hpend]; decide
  have hpf : (it.status == "failed") = false := by rw [hpend]; decide
  rw [hps] at hcs
  rw [hpf] at hcf
  simp only [Bool.false_eq_true, if_false, Nat.add_zero] at hcs hcf
  have hupds : (applyUpd u now it).status = u.status := rfl
  rcases hterm with h | h
  · have h1 : ((applyUpd u now it).status == "success") = true := by
      rw [hupds, h]; decide
    have h2 : ((applyUpd u now it).status == "failed") = false := by
      rw [hupds, h]; decide
    rw [h1] at hcs
    rw [h2] at hcf
    simp only [if_true, Bool.false_eq_true, if_false, Nat.add_zero] at hcs hcf
    have hstep : update_item u now st =
        { job := { st.job with
            completed_items := st.job.completed_items + 1
            successful_items := st.job.successful_items + 1 }
          items := setItem u.itemId (applyUpd u now) st.items } := by
      simp [update_item, hany, h]
    rw [hstep]
    refine ⟨hids, ?_, ?_, ?_⟩ <;> · simp only; omega
  · have h1 : ((applyUpd u now it).status == "success") = false := by
      rw [hupds, h]; decide
    have h2 : ((applyUpd u now it).status == "failed") = true := by
      rw [hupds, h]; decide
    rw [h1] at hcs
    rw [h2] at hcf
    simp only [if_true, Bool.false_eq_true, if_false, Nat.add_zero] at hcs hcf
    have hne : u.status ≠ "success" := by rw [h]; decide
    have hstep : update_item u now st =
        { job := { st.job with
            completed_items := st.job.completed_items + 1
            failed_items := st.job.failed_items + 1 }
          items := setItem u.itemId (applyUpd u now) st.items } := by
      simp [update_item, hany, hne, h]
    rw [hstep]
    refine ⟨hids, ?_, ?_, ?_⟩ <;> · simp only; omega

theorem invFull_reset {st : JobState} (hinv : InvFull st) :
    InvFull (reset_failed_items st).2 := by
  obtain ⟨hnd, hs, hf, hc⟩ := hinv
  refine ⟨?_, ?_, ?_, ?_⟩
  · simp only [reset_failed_items]
    rw [reset_ids]
    exact hnd
  · simp only [reset_failed_items, countStatus_reset_success]
    exact hs
  · simp only [reset_failed_items, countStatus_reset_failed]
    simp
  · simp only [reset_failed_items, countStatus_reset_failed, countStatus_reset_success]
    push_cast
    omega

theorem invFull_reach {ds : List NewItem} {jobId t0 : String} {st : JobState}
    (h : Reach ds jobId t0 st) : InvFull st := by
  induction h with
  | init => exact invFull_create ds jobId t0
  | start st now _ ih => exact ⟨ih.1, ih.2.1, ih.2.2.1, ih.2.2.2⟩
  | update st u now it _ hmem hid hpend hterm ih =>
      exact invFull_update u now ih hmem hid hpend hterm
  | complete st s now _ ih => exact ⟨ih.1, ih.2.1, ih.2.2.1, ih.2.2.2⟩
  | reset st _ ih => exact invFull_reset ih

/-! ## Tracking one item through a run -/

theorem findItem_id {l : List JobItem} {i : Nat} {x : JobItem}
    (h : findItem l i = some x) : x.itemId = i := by
  simpa using List.find?_some h

theorem find?_map_of_id {f : JobItem → JobItem}
    (hfid : ∀ x, (f x).itemId = x.itemId) (i : Nat) :
    ∀ l : List JobItem,
      (l.map f).find? (fun it => it.itemId == i) =
        (l.find? (fun it => it.itemId == i)).map f := by
  intro l
  induction l with
  | nil => rfl
  | cons a l ih =>
      rw [List.map_cons]
      by_cases hai : (a.itemId == i) = true
      · rw [List.find?_cons_of_pos (p := fun (x : JobItem) => x.itemId == i) _
            (by show ((f a).itemId == i) = true; rw [hfid]; exact hai),
          List.find?_cons_of_pos (p := fun (x : JobItem) => x.itemId == i) _ (by exact hai)]
        rfl
      · rw [List.find?_cons_of_neg (p := fun (x : JobItem) => x.itemId == i) _
            (by show ¬ ((f a).itemId == i) = true; rw [hfid]; exact hai),
          List.find?_cons_of_neg (p := fun (x : JobItem) => x.itemId == i) _ (by exact hai)]
        exact ih

theorem findItem_setItem (l : List JobItem) (i j : Nat) (g : JobItem → JobItem)
    (hg : ∀ x, (g x).itemId = x.itemId) :
    findItem (setItem j g l) i =
      (findItem l i).map (fun x => if x.itemId == j then g x else x) := by
  have hfid : ∀ x : JobItem, ((if x.itemId == j then g x else x) : JobItem).itemId = x.itemId := by
    intro x
    by_cases hj : (x.itemId == j) = true
    · rw [if_pos hj]; exact hg x
    · rw [if_neg hj]
  exact find?_map_of_id hfid i l

theorem findItem_of_nodup {l : List JobItem} {it : JobItem}
    (hnd : (itemIds l).Nodup) (hmem : it ∈ l) :
    findItem l it.itemId = some it := by
  induction l with
  | nil => cases hmem
  | cons a l ih =>
      simp only [itemIds, List.map_cons, List.nodup_cons] at hnd
      obtain ⟨hna, hnl⟩ := hnd
      by_cases h : a.itemId = it.itemId
      · have hit : it = a := by
          rcases List.mem_cons.mp hmem with h' | h' <;>
            [exact h'; exact absurd (h ▸ List.mem_map_of_mem (fun x => x.itemId) h') hna]
        subst hit
        simp [findItem, List.find?_cons, h]
      · have hit : it ∈ l := by
          rcases List.mem_cons.mp hmem with h' | h' <;>
            [exact absurd (h' ▸ rfl) h; exact h']
        have h2 : (a.itemId == it.itemId) = false := by simp [h]
        simp only [findItem, List.find?_cons, h2]
        simpa [findItem] using ih hnl hit

/-- `update_item` never touches the row of another id. -/
theorem getStatus_update_ne {u : UpdateCall} {now : String} {st : JobState} {i : Nat}
    (h : u.itemId ≠ i) : getStatus (update_item u now st) i = getStatus st i := by
  have hfind := findItem_setItem st.items i u.itemId (applyUpd u now) (fun x => rfl)
  simp only [getStatus, update_item, hfind]
  rcases hf : findItem st.items i with _ | x
  · rfl
  · have hxi : x.itemId = i := findItem_id hf
    have hx : ¬ ((x.itemId == u.itemId) = true) := by
      rw [hxi]
      simp
      exact fun hc => h hc.symm
    rw [Option.map_some', if_neg hx]

/-- `update_item` writes exactly its status argument to its target row. -/
theorem getStatus_update_self {u : UpdateCall} {now : String} {st : JobState}
    {x : JobItem} (hf : findItem st.items u.itemId = some x) :
    getStatus (update_item u now st) u.itemId = some u.status := by
  have hfind := findItem_setItem st.items u.itemId u.itemId (applyUpd u now) (fun x => rfl)
  have hx : (x.itemId == u.itemId) = true := by simp [findItem_id hf]
  simp only [getStatus, update_item, hfind, hf, Option.map_some', if_pos hx]
  rfl

theorem findItem_update_isSome {u : UpdateCall} {now : String} {st : JobState} {i : Nat} :
    (findItem (update_item u now st).items i).isSome = (findItem st.items i).isSome := by
  have hfind := findItem_setItem st.items i u.itemId (applyUpd u now) (fun x => rfl)
  simp only [update_item, hfind]
  rcases findItem st.items i with _ | x <;> rfl

theorem getStatus_applyUpdates_ne (now : String) :
    ∀ (us : List UpdateCall) (st : JobState) (i : Nat),
      (∀ u ∈ us, u.itemId ≠ i) →
      getStatus (applyUpdates us now st) i = getStatus st i := by
  intro us
  induction us with
  | nil => intro st i _; rfl
  | cons u us ih =>
      intro st i h
      have h1 : getStatus (applyUpdates us now (update_item u now st)) i =
          getStatus (update_item u now st) i :=
        ih (update_item u now st) i (fun v hv => h v (List.mem_cons_of_mem u hv))
      calc getStatus (applyUpdates (u :: us) now st) i
          = getStatus (applyUpdates us now (update_item u now st)) i := rfl
        _ = getStatus (update_item u now st) i := h1
        _ = getStatus st i := getStatus_update_ne (h u (List.mem_cons_self u us))

/-- Applying a batch of updates containing exactly one write against id
`i` leaves that row carrying the written status. -/
theorem getStatus_applyUpdates_unique (now : String) :
    ∀ (us : List UpdateCall) (st : JobState) (u : UpdateCall),
      u ∈ us → (us.countP (fun v => v.itemId == u.itemId)) = 1 →
      (findItem st.items u.itemId).isSome = true →
      getStatus (applyUpdates us now st) u.itemId = some u.status := by
  intro us
  induction us with
  | nil => intro st u hmem; cases hmem
  | cons v us ih =>
      intro st u hmem hcount hsome
      rw [List.countP_cons] at hcount
      by_cases hv : v.itemId = u.itemId
      · have hvc : (v.itemId == u.itemId) = true := by simp [hv]
        rw [hvc, if_pos rfl] at hcount
        have hzero : us.countP (fun w => w.itemId == u.itemId) = 0 := by omega
        have huv : u = v := by
          rcases List.mem_cons.mp hmem with h | h
          · exact h
          · exact absurd (by simp : (u.itemId == u.itemId) = true)
              (List.countP_eq_zero.mp hzero u h)
        obtain ⟨x, hx⟩ := Option.isSome_iff_exists.mp hsome
        have hself : getStatus (update_item v now st) u.itemId = some u.status := by
          rw [huv]
          exact getStatus_update_self (hv ▸ hx)
        have hrest : getStatus (applyUpdates us now (update_item v now st)) u.itemId =
            getStatus (update_item v now st) u.itemId :=
          getStatus_applyUpdates_ne now us (update_item v now st) u.itemId
            (fun w hw => by simpa using List.countP_eq_zero.mp hzero w hw)
        calc getStatus (applyUpdates (v :: us) now st) u.itemId
            = getStatus (applyUpdates us now (update_item v now st)) u.itemId := rfl
          _ = some u.status := hrest.trans hself
      · have hvc : (v.itemId == u.itemId) = false := by simp [hv]
        rw [hvc] at hcount
        simp only [Bool.false_eq_true, if_false, Nat.add_zero] at hcount
        have hu : u ∈ us := by
          rcases List.mem_cons.mp hmem with h | h
          · exact absurd (h ▸ rfl) (fun hc => hv (congrArg UpdateCall.itemId hc).symm)
          · exact h
        have hsome' : (findItem (update_item v now st).items u.itemId).isSome = true := by
          rw [findItem_update_isSome]; exact hsome
        exact ih (update_item v now st) u hu hcount hsome'

/-! ## Lane and task lemmas -/

theorem laneOf_oneClick_iff (it : JobItem) :
    laneOf it = some Lane.oneClick ↔ ocp it = true := by
  unfold laneOf ocp
  by_cases h1 : oneClickFlag it.unsubscribe_url <;>
    by_cases h2 : truthy it.unsubscribe_url <;>
    by_cases h3 : truthy it.unsubscribe_mailto <;>
    simp [h1, h2, h3]

theorem laneOf_browser_iff (it : JobItem) :
    laneOf it = some Lane.browser ↔ brp it = true := by
  unfold laneOf brp
  by_cases h1 : oneClickFlag it.unsubscribe_url <;>
    by_cases h2 : truthy it.unsubscribe_url <;>
    by_cases h3 : truthy it.unsubscribe_mailto <;>
    simp [h1, h2, h3]

theorem laneOf_mailto_iff (it : JobItem) :
    laneOf it = some Lane.mailtoOnly ↔ mop it = true := by
  unfold laneOf mop
  by_cases h1 : oneClickFlag it.unsubscribe_url <;>
    by_cases h2 : truthy it.unsubscribe_url <;>
    by_cases h3 : truthy it.unsubscribe_mailto <;>
    simp [h1, h2, h3]

theorem laneOf_none_iff (it : JobItem) :
    laneOf it = none ↔
      (truthy it.unsubscribe_url = false ∧ truthy it.unsubscribe_mailto = false) := by
  unfold laneOf
  by_cases h1 : oneClickFlag it.unsubscribe_url <;>
    by_cases h2 : truthy it.unsubscribe_url <;>
    by_cases h3 : truthy it.unsubscribe_mailto <;>
    simp_all [oneClickFlag]

theorem runItemTask_of_fault {lane : Lane} {it : JobItem} {e : ItemEnv} {d : String}
    (h : e.fault = some d) : runItemTask lane it e = .error d := by
  simp [runItemTask, h]

theorem recordResult_itemId (sender : String) (iid : Nat) (method : String)
    (success : Bool) (message : String) :
    (recordResult sender iid method success message).1.itemId = iid := rfl

theorem recordResult_status (sender : String) (iid : Nat) (method : String)
    (success : Bool) (message : String) :
    (recordResult sender iid method success message).1.status = "success" ∨
      (recordResult sender iid method success message).1.status = "failed" := by
  cases success <;> simp [recordResult]

theorem oneClickFallback_itemId (sender : String) (iid : Nat) (mailto : Option String)
    (prim mres : Bool × String) :
    (oneClickFallback sender iid mailto prim mres).1.itemId = iid := by
  unfold oneClickFallback
  split_ifs <;> rfl

theorem oneClickFallback_statusTerm (sender : String) (iid : Nat) (mailto : Option String)
    (prim mres : Bool × String) :
    (oneClickFallback sender iid mailto prim mres).1.status = "success" ∨
      (oneClickFallback sender iid mailto prim mres).1.status = "failed" := by
  unfold oneClickFallback
  split_ifs <;> exact recordResult_status ..

theorem browserFallback_itemId (sender : String) (iid : Nat) (mailto : Option String)
    (prim mres : Bool × String) :
    (browserFallback sender iid mailto prim mres).1.itemId = iid := by
  unfold browserFallback
  split_ifs <;> rfl

theorem browserFallback_statusTerm (sender : String) (iid : Nat) (mailto : Option String)
    (prim mres : Bool × String) :
    (browserFallback sender iid mailto prim mres).1.status = "success" ∨
      (browserFallback sender iid mailto prim mres).1.status = "failed" := by
  unfold browserFallback
  split_ifs <;> exact recordResult_status ..

theorem runItemTask_ok_shape (lane : Lane) (it : JobItem) {e : ItemEnv}
    (h : e.fault = none) :
    ∃ u ent, runItemTask lane it e = .ok (u, ent) ∧ u.itemId = it.itemId ∧
      (u.status = "success" ∨ u.status = "failed") := by
  cases lane
  · exact ⟨_, _, by unfold runItemTask; rw [h],
      oneClickFallback_itemId .., oneClickFallback_statusTerm ..⟩
  · exact ⟨_, _, by unfold runItemTask; rw [h],
      browserFallback_itemId .., browserFallback_statusTerm ..⟩
  · exact ⟨(mailtoExec it.sender it.itemId e.prim).1, (mailtoExec it.sender it.itemId e.prim).2,
      by unfold runItemTask; rw [h],
      recordResult_itemId it.sender it.itemId "mailto" e.prim.1 e.prim.2,
      recordResult_status it.sender it.itemId "mailto" e.prim.1 e.prim.2⟩

/-- Per-lane accounting of database writes: the writes of one lane's
task list contain exactly one write per lane member whose task did not
raise, each labelled with its member's id. -/
theorem lane_upd_count (lane : Lane) (env : Nat → ItemEnv) (i : Nat) :
    ∀ l : List JobItem,
      ((l.map (fun it => runItemTask lane it (env it.itemId))).filterMap taskUpd).countP
          (fun u => u.itemId == i)
        = l.countP (fun it => it.itemId == i && (env it.itemId).fault.isNone) := by
  intro l
  induction l with
  | nil => rfl
  | cons a l ih =>
      rw [List.map_cons, List.filterMap_cons]
      cases hf : (env a.itemId).fault with
      | some d =>
          rw [runItemTask_of_fault hf]
          have hpa : (a.itemId == i && (env a.itemId).fault.isNone) = false := by
            simp [hf]
          rw [List.countP_cons, hpa]
          simpa using ih
      | none =>
          obtain ⟨u, ent, htask, hid, _⟩ := runItemTask_ok_shape lane a hf
          rw [htask]
          simp only [taskUpd]
          rw [List.countP_cons, List.countP_cons]
          have hpa : (a.itemId == i && (env a.itemId).fault.isNone)
              = (u.itemId == i) := by
            simp [hf, hid]
          rw [hpa, ih]

/-- Accounting of a whole run's database writes per item id. -/
theorem runUpdates_count (st : JobState) (env : Nat → ItemEnv) (i : Nat) :
    (runUpdates st env).countP (fun u => u.itemId == i) =
      (ocLane (pendingItems st)).countP
          (fun it => it.itemId == i && (env it.itemId).fault.isNone) +
        (brLane (pendingItems st)).countP
          (fun it => it.itemId == i && (env it.itemId).fault.isNone) +
        (moLane (pendingItems st)).countP
          (fun it => it.itemId == i && (env it.itemId).fault.isNone) := by
  unfold runUpdates runTasks
  rw [List.filterMap_append, List.filterMap_append,
    List.countP_append, List.countP_append,
    lane_upd_count, lane_upd_count, lane_upd_count]

theorem countP_id_zero {l : List JobItem} {i : Nat} (P : JobItem → Bool)
    (h : ∀ x ∈ l, x.itemId ≠ i) :
    l.countP (fun x => x.itemId == i && P x) = 0 :=
  List.countP_eq_zero.mpr fun x hx => by simp [h x hx]

theorem countP_id_unique {l : List JobItem} {it : JobItem}
    (hnd : (itemIds l).Nodup) (hmem : it ∈ l) (P : JobItem → Bool) :
    l.countP (fun x => x.itemId == it.itemId && P x) = if P it then 1 else 0 := by
  induction l with
  | nil => cases hmem
  | cons a l ih =>
      simp only [itemIds, List.map_cons, List.nodup_cons] at hnd
      obtain ⟨hna, hnl⟩ := hnd
      by_cases h : a.itemId = it.itemId
      · have hit : it = a := by
          rcases List.mem_cons.mp hmem with h' | h' <;>
            [exact h'; exact absurd (h ▸ List.mem_map_of_mem (fun x => x.itemId) h') hna]
        subst hit
        have hzero : l.countP (fun x => x.itemId == it.itemId && P x) = 0 :=
          countP_id_zero P fun x hx hc =>
            hna (hc ▸ List.mem_map_of_mem (fun y => y.itemId) hx)
        rw [List.countP_cons, hzero]
        simp
      · have hit : it ∈ l := by
          rcases List.mem_cons.mp hmem with h' | h' <;>
            [exact absurd (h' ▸ rfl) h; exact h']
        have hpa : (a.itemId == it.itemId && P a) = false := by simp [h]
        rw [List.countP_cons, hpa, ih hnl hit]
        simp

/-- The lane-filtered write count of one item, reduced to its own lane
membership, pending status, and fault flag. -/
theorem lane_countP_item {st : JobState} {it : JobItem} (q : JobItem → Bool)
    (env : Nat → ItemEnv)
    (hnd : (itemIds st.items).Nodup) (hmem : it ∈ st.items) :
    ((pendingItems st).filter q).countP
        (fun x => x.itemId == it.itemId && (env x.itemId).fault.isNone) =
      if ((env it.itemId).fault.isNone && q it) && (it.status == "pending")
        then 1 else 0 := by
  rw [List.countP_filter]
  unfold pendingItems
  rw [List.countP_filter]
  have hcongr : st.items.countP
      (fun x => ((x.itemId == it.itemId && (env x.itemId).fault.isNone) && q x) &&
        (x.status == "pending"))
      = st.items.countP
        (fun x => x.itemId == it.itemId &&
          (((env x.itemId).fault.isNone && q x) && (x.status == "pending"))) := by
    refine List.countP_congr ?_
    intro x _
    by_cases h : (x.itemId == it.itemId) = true <;> simp [h, Bool.and_assoc]
  rw [hcongr, countP_id_unique hnd hmem]

theorem run_upd_count_of_item {st : JobState} {it : JobItem} (env : Nat → ItemEnv)
    (hnd : (itemIds st.items).Nodup) (hmem : it ∈ st.items) :
    (runUpdates st env).countP (fun u => u.itemId == it.itemId) =
      (if ((env it.itemId).fault.isNone && ocp it) && (it.status == "pending")
        then 1 else 0) +
      (if ((env it.itemId).fault.isNone && brp it) && (it.status == "pending")
        then 1 else 0) +
      (if ((env it.itemId).fault.isNone && mop it) && (it.status == "pending")
        then 1 else 0) := by
  rw [runUpdates_count]
  unfold ocLane brLane moLane
  rw [lane_countP_item ocp env hnd hmem, lane_countP_item brp env hnd hmem,
    lane_countP_item mop env hnd hmem]

theorem lane_flags_oneClick {it : JobItem} (h : laneOf it = some Lane.oneClick) :
    ocp it = true ∧ brp it = false ∧ mop it = false := by
  have h1 := (laneOf_oneClick_iff it).mp h
  unfold ocp at h1
  exact ⟨h1, by unfold brp; simp [h1], by unfold mop; simp [h1]⟩

theorem lane_flags_browser {it : JobItem} (h : laneOf it = some Lane.browser) :
    ocp it = false ∧ brp it = true ∧ mop it = false := by
  have h1 := (laneOf_browser_iff it).mp h
  have h2 := h1
  unfold brp at h2
  simp only [Bool.and_eq_true] at h2
  obtain ⟨hnf, ht⟩ := h2
  refine ⟨?_, h1, ?_⟩
  · unfold ocp; simpa using hnf
  · unfold mop; simp [ht]

theorem lane_flags_mailto {it : JobItem} (h : laneOf it = some Lane.mailtoOnly) :
    ocp it = false ∧ brp it = false ∧ mop it = true := by
  have h1 := (laneOf_mailto_iff it).mp h
  have h2 := h1
  unfold mop at h2
  simp only [Bool.and_eq_true] at h2
  obtain ⟨⟨hnf, hnt⟩, hm⟩ := h2
  refine ⟨?_, ?_, h1⟩
  · unfold ocp; simpa using hnf
  · unfold brp; simp_all

/-- A pending classified item whose task does not raise receives exactly
one database write. -/
theorem run_upd_count_one {st : JobState} {it : JobItem} {l : Lane}
    (env : Nat → ItemEnv)
    (hnd : (itemIds st.items).Nodup) (hmem : it ∈ st.items)
    (hpend : it.status = "pending") (hlane : laneOf it = some l)
    (hfault : (env it.itemId).fault = none) :
    (runUpdates st env).countP (fun u => u.itemId == it.itemId) = 1 := by
  rw [run_upd_count_of_item env hnd hmem]
  have hno : (env it.itemId).fault.isNone = true := by rw [hfault]; rfl
  have hp : (it.status == "pending") = true := by simp [hpend]
  cases l
  · obtain ⟨h1, h2, h3⟩ := lane_flags_oneClick hlane
    simp [hno, hp, h1, h2, h3]
  · obtain ⟨h1, h2, h3⟩ := lane_flags_browser hlane
    simp [hno, hp, h1, h2, h3]
  · obtain ⟨h1, h2, h3⟩ := lane_flags_mailto hlane
    simp [hno, hp, h1, h2, h3]

/-- An item whose task raises receives no database write. -/
theorem run_upd_count_zero_of_fault {st : JobState} {it : JobItem} {d : String}
    (env : Nat → ItemEnv)
    (hnd : (itemIds st.items).Nodup) (hmem : it ∈ st.items)
    (hfault : (env it.itemId).fault = some d) :
    (runUpdates st env).countP (fun u => u.itemId == it.itemId) = 0 := by
  rw [run_upd_count_of_item env hnd hmem]
  have hno : (env it.itemId).fault.isNone = false := by rw [hfault]; rfl
  simp [hno]

/-- An unclassifiable item receives no database write. -/
theorem run_upd_count_zero_of_none {st : JobState} {it : JobItem}
    (env : Nat → ItemEnv)
    (hnd : (itemIds st.items).Nodup) (hmem : it ∈ st.items)
    (hlane : laneOf it = none) :
    (runUpdates st env).countP (fun u => u.itemId == it.itemId) = 0 := by
  obtain ⟨hu, hm⟩ := (laneOf_none_iff it).mp hlane
  have hoc : ocp it = false := by unfold ocp oneClickFlag; simp [hu]
  have hbr : brp it = false := by unfold brp; simp [hu]
  have hmo : mop it = false := by unfold mop; simp [hm]
  rw [run_upd_count_of_item env hnd hmem]
  simp [hoc, hbr, hmo]

/-- The task spawned for a pending item of lane `l` is among the run's
tasks. -/
theorem runItemTask_mem_runTasks {st : JobState} {it : JobItem} {l : Lane}
    (env : Nat → ItemEnv)
    (hmem : it ∈ st.items) (hpend : it.status = "pending")
    (hlane : laneOf it = some l) :
    runItemTask l it (env it.itemId) ∈ runTasks st env := by
  have hpmem : it ∈ pendingItems st :=
    List.mem_filter.mpr ⟨hmem, by simp [hpend]⟩
  unfold runTasks
  cases l
  · refine List.mem_append_left _ (List.mem_append_left _ ?_)
    exact List.mem_map_of_mem _
      (List.mem_filter.mpr ⟨hpmem, (laneOf_oneClick_iff it).mp hlane⟩)
  · refine List.mem_append_left _ (List.mem_append_right _ ?_)
    exact List.mem_map_of_mem _
      (List.mem_filter.mpr ⟨hpmem, (laneOf_browser_iff it).mp hlane⟩)
  · refine List.mem_append_right _ ?_
    exact List.mem_map_of_mem _
      (List.mem_filter.mpr ⟨hpmem, (laneOf_mailto_iff it).mp hlane⟩)

/-- The write of a pending classified non-raising item is among the
run's writes, targets that item, and carries a terminal status. -/
theorem run_upd_mem {st : JobState} {it : JobItem} {l : Lane}
    (env : Nat → ItemEnv)
    (hmem : it ∈ st.items) (hpend : it.status = "pending")
    (hlane : laneOf it = some l) (hfault : (env it.itemId).fault = none) :
    ∃ u, u ∈ runUpdates st env ∧ u.itemId = it.itemId ∧
      (u.status = "success" ∨ u.status = "failed") := by
  obtain ⟨u, ent, htask, hid, hst⟩ := runItemTask_ok_shape l it hfault
  refine ⟨u, ?_, hid, hst⟩
  unfold runUpdates
  refine List.mem_filterMap.mpr
    ⟨runItemTask l it (env it.itemId),
      runItemTask_mem_runTasks env hmem hpend hlane, ?_⟩
  rw [htask]
  rfl

/-- The converted error entry of a raising classified item is among the
run's results. -/
theorem run_error_entry_mem {st : JobState} {it : JobItem} {l : Lane} {d : String}
    (env : Nat → ItemEnv)
    (hmem : it ∈ st.items) (hpend : it.status = "pending")
    (hlane : laneOf it = some l) (hfault : (env it.itemId).fault = some d) :
    ({ sender := "Unknown", success := false, method := "error",
        message := d.take 50 } : ResultEntry) ∈ runResults st env := by
  unfold runResults
  have htask : runItemTask l it (env it.itemId) = .error d :=
    runItemTask_of_fault hfault
  have hmemtask := runItemTask_mem_runTasks env hmem hpend hlane
  rw [htask] at hmemtask
  exact List.mem_map_of_mem taskEntry hmemtask

theorem countStatus_reset_pending (l : List JobItem) :
    countStatus "pending" (l.map resetOne) =
      countStatus "pending" l + countStatus "failed" l := by
  induction l with
  | nil => rfl
  | cons a l ih =>
      rw [List.map_cons, countStatus_cons, countStatus_cons, countStatus_cons, ih]
      by_cases h : (a.status == "failed") = true
      · have hs : a.status = "failed" := by simpa using h
        have h1 : ((resetOne a).status == "pending") = true := by
          simp [resetOne, h]
        have h2 : (a.status == "pending") = false := by simp [hs]
        rw [h1, h2, h]
        simp
        omega
      · have hb : (a.status == "failed") = false := by simpa using h
        have hra : resetOne a = a := by
          unfold resetOne
          rw [hb]
          simp
        rw [hra, hb]
        simp
        omega

theorem resetItems_id_of_no_failed {l : List JobItem}
    (h : countStatus "failed" l = 0) : l.map resetOne = l := by
  induction l with
  | nil => rfl
  | cons a l ih =>
      rw [countStatus_cons] at h
      have ha : (a.status == "failed") = false := by
        by_cases hc : (a.status == "failed") = true
        · rw [hc] at h; simp at h
        · simpa using hc
      have hl : countStatus "failed" l = 0 := by
        rw [ha] at h; simpa using h
      simp only [List.map_cons, ih hl]
      unfold resetOne
      rw [ha]
      simp

/-! ## Claim C1 -/

/-- C1: along every operation sequence the engine itself performs —
creation, start, one terminal write per pending item, completion,
reset of failed items — the job's counters satisfy
completed_items = successful_items + failed_items at every observable
point. -/
theorem claim1_counter_invariant {ds : List NewItem} {jobId t0 : String}
    {st : JobState} (h : Reach ds jobId t0 st) :
    st.job.completed_items = st.job.successful_items + st.job.failed_items := by
  obtain ⟨_, hs, hf, hc⟩ := invFull_reach h
  rw [hs, hf, hc]

/-- Witness for C1: the invariant evaluated on a freshly created job. -/
theorem claim1_counter_invariant_witness :
    (create_job [⟨"a", "a@x", some "https://u.example/x", none⟩] "j" "t0").job.completed_items =
      (create_job [⟨"a", "a@x", some "https://u.example/x", none⟩] "j" "t0").job.successful_items +
      (create_job [⟨"a", "a@x", some "https://u.example/x", none⟩] "j" "t0").job.failed_items :=
  claim1_counter_invariant Reach.init

/-! ## Claim C2 -/

/-- C2 is false on the code: the job runner recomputes the one_click
flag as url.startswith('http'), so a one-click-incapable https item
still lands in the one-click lane, never the browser lane. -/
theorem claim2_counterexample : ¬ claimC2 := by
  intro h
  have h2 := (h cexItem false).2.1
  have hb : laneOf cexItem = some Lane.browser := h2.mpr ⟨by decide, rfl⟩
  exact absurd hb (by decide)

/-- C2 amended: the one-click lane takes every item whose URL starts
with http (capability is not consulted); the browser lane takes items
with a truthy URL not starting with http; the mailto lane items with no
truthy URL but a truthy mailto; items with neither are in no lane. -/
theorem claim2_lane_classification (it : JobItem) :
    (laneOf it = some Lane.oneClick ↔ oneClickFlag it.unsubscribe_url = true) ∧
    (laneOf it = some Lane.browser ↔
      (oneClickFlag it.unsubscribe_url = false ∧ truthy it.unsubscribe_url = true)) ∧
    (laneOf it = some Lane.mailtoOnly ↔
      (truthy it.unsubscribe_url = false ∧ truthy it.unsubscribe_mailto = true)) ∧
    (laneOf it = none ↔
      (truthy it.unsubscribe_url = false ∧ truthy it.unsubscribe_mailto = false)) := by
  unfold laneOf
  by_cases h1 : oneClickFlag it.unsubscribe_url <;>
    by_cases h2 : truthy it.unsubscribe_url <;>
    by_cases h3 : truthy it.unsubscribe_mailto <;>
    simp_all [oneClickFlag]

/-! ## Claim C3 -/

/-- C3 is false on the code: in the browser lane a failed mailto
fallback does not append the failure suffix to the message. -/
theorem claim3_counterexample : ¬ claimC3 := by
  intro h
  have h3 := ((h "s" 1 (some "m@x") (false, "pm") (false, "mm")).2.2.1 rfl (by decide) rfl).2
  exact absurd h3 (by decide)

/-- C3 amended: the one-click lane behaves as the spec states in all
four cases; the browser lane agrees except that a failed mailto
fallback leaves the primary message without the appended suffix. -/
theorem claim3_fallback_cascade (sender : String) (iid : Nat)
    (mailto : Option String) (prim mres : Bool × String) :
    (prim.1 = true →
      (oneClickFallback sender iid mailto prim mres).2 = ⟨sender, true, "one-click", prim.2⟩ ∧
      (browserFallback sender iid mailto prim mres).2 = ⟨sender, true, "browser", prim.2⟩) ∧
    (prim.1 = false → truthy mailto = true → mres.1 = true →
      (oneClickFallback sender iid mailto prim mres).2 = ⟨sender, true, "mailto", mres.2⟩ ∧
      (browserFallback sender iid mailto prim mres).2 = ⟨sender, true, "mailto", mres.2⟩) ∧
    (prim.1 = false → truthy mailto = true → mres.1 = false →
      (oneClickFallback sender iid mailto prim mres).2 =
        ⟨sender, false, "one-click", prim.2 ++ " (mailto also failed)"⟩ ∧
      (oneClickFallback sender iid mailto prim mres).1 =
        ⟨iid, "failed", "one-click", some (prim.2 ++ " (mailto also failed)")⟩ ∧
      (browserFallback sender iid mailto prim mres).2 = ⟨sender, false, "browser", prim.2⟩ ∧
      (browserFallback sender iid mailto prim mres).1 =
        ⟨iid, "failed", "browser", some prim.2⟩) ∧
    (prim.1 = false → truthy mailto = false →
      (oneClickFallback sender iid mailto prim mres).2 = ⟨sender, false, "one-click", prim.2⟩ ∧
      (browserFallback sender iid mailto prim mres).2 = ⟨sender, false, "browser", prim.2⟩) := by
  refine ⟨?_, ?_, ?_, ?_⟩
  · intro hp
    constructor <;> simp [oneClickFallback, browserFallback, recordResult, hp]
  · intro hp hm hr
    constructor <;> simp [oneClickFallback, browserFallback, recordResult, hp, hm, hr]
  · intro hp hm hr
    refine ⟨?_, ?_, ?_, ?_⟩ <;>
      simp [oneClickFallback, browserFallback, recordResult, hp, hm, hr]
  · intro hp hm
    constructor <;> simp [oneClickFallback, browserFallback, recordResult, hp, hm]

/-- Witness for C3 amended: all four cases at concrete inputs. -/
theorem claim3_fallback_cascade_witness :
    ((oneClickFallback "s" 1 (some "m@x") (true, "ok") (false, "mm")).2 =
        ⟨"s", true, "one-click", "ok"⟩) ∧
    ((oneClickFallback "s" 1 (some "m@x") (false, "pm") (true, "sent")).2 =
        ⟨"s", true, "mailto", "sent"⟩) ∧
    ((oneClickFallback "s" 1 (some "m@x") (false, "pm") (false, "mm")).2 =
        ⟨"s", false, "one-click", "pm (mailto also failed)"⟩) ∧
    ((browserFallback "s" 1 (some "m@x") (false, "pm") (false, "mm")).2 =
        ⟨"s", false, "browser", "pm"⟩) ∧
    ((browserFallback "s" 1 none (false, "pm") (false, "mm")).2 =
        ⟨"s", false, "browser", "pm"⟩) :=
  ⟨((claim3_fallback_cascade "s" 1 (some "m@x") (true, "ok") (false, "mm")).1 rfl).1,
   ((claim3_fallback_cascade "s" 1 (some "m@x") (false, "pm") (true, "sent")).2.1
      rfl (by decide) rfl).1,
   ((claim3_fallback_cascade "s" 1 (some "m@x") (false, "pm") (false, "mm")).2.2.1
      rfl (by decide) rfl).1,
   ((claim3_fallback_cascade "s" 1 (some "m@x") (false, "pm") (false, "mm")).2.2.1
      rfl (by decide) rfl).2.2.1,
   ((claim3_fallback_cascade "s" 1 none (false, "pm") (false, "mm")).2.2.2
      rfl rfl).2⟩

/-! ## Claim C4 -/

/-- C4 is false on the code: retry on a completed job with zero failed
items still resets the job to pending and clears completed_at, because
reset_failed_items runs before the zero check. -/
theorem claim4_counterexample : ¬ claimC4 := by
  intro h
  have h4 := (h cexDoneSt (by decide) (by decide)).2.2.1
  exact absurd h4 (by decide)

/-- C4 amended: on a non-running job with zero failed items (and a
failed counter matching, as the store invariant guarantees), retry
reports zero retried, starts no run, and leaves the items and all three
counters unchanged — but it resets the job status to pending and clears
completed_at. -/
theorem claim4_retry_zero_failed (st : JobState)
    (hrun : st.job.status ≠ "running")
    (hzero : countStatus "failed" st.items = 0)
    (hcons : st.job.failed_items = (countStatus "failed" st.items : Int)) :
    (retry_job (some st)).1 = RetryResp.noItems ∧
    (retry_job (some st)).2.2 = false ∧
    (retry_job (some st)).2.1 = some
      { job := { st.job with status := "pending", completed_at := none }
        items := st.items } := by
  have hreset : reset_failed_items st =
      (0, { job := { st.job with status := "pending", completed_at := none }
            items := st.items }) := by
    unfold reset_failed_items
    rw [hzero, resetItems_id_of_no_failed hzero]
    have hf0 : st.job.failed_items = 0 := by rw [hcons, hzero]; rfl
    simp [hf0]
  simp [retry_job, hrun, hreset]

/-- Witness for C4 amended at the concrete completed job. -/
theorem claim4_retry_zero_failed_witness :
    (retry_job (some cexDoneSt)).1 = RetryResp.noItems ∧
    (retry_job (some cexDoneSt)).2.2 = false ∧
    (retry_job (some cexDoneSt)).2.1 = some
      { job := { cexDoneSt.job with status := "pending", completed_at := none }
        items := cexDoneSt.items } :=
  claim4_retry_zero_failed cexDoneSt (by decide) (by decide) (by decide)

/-! ## Claim C5 -/

/-- C5: reset_failed_items flips exactly the failed items to pending
with retry_count + 1, leaves other items untouched, decrements
completed_items and failed_items by the number reset (the failed
counter matching the failed rows, as the store invariant guarantees),
keeps successful_items, resets the job to pending with completed_at
cleared, and returns the number reset. -/
theorem claim5_reset_failed_items (st : JobState)
    (hcons : st.job.failed_items = (countStatus "failed" st.items : Int)) :
    (reset_failed_items st).1 = countStatus "failed" st.items ∧
    (reset_failed_items st).2.job.status = "pending" ∧
    (reset_failed_items st).2.job.completed_at = none ∧
    (reset_failed_items st).2.job.completed_items =
      st.job.completed_items - (reset_failed_items st).1 ∧
    (reset_failed_items st).2.job.failed_items =
      st.job.failed_items - (reset_failed_items st).1 ∧
    (reset_failed_items st).2.job.successful_items = st.job.successful_items ∧
    countStatus "failed" (reset_failed_items st).2.items = 0 ∧
    countStatus "success" (reset_failed_items st).2.items =
      countStatus "success" st.items ∧
    countStatus "pending" (reset_failed_items st).2.items =
      countStatus "pending" st.items + (reset_failed_items st).1 ∧
    (∀ it ∈ st.items, it.status ≠ "failed" → it ∈ (reset_failed_items st).2.items) ∧
    (∀ it ∈ st.items, it.status = "failed" →
      ({ it with status := "pending", retry_count := it.retry_count + 1 } : JobItem) ∈
        (reset_failed_items st).2.items) := by
  refine ⟨rfl, rfl, rfl, rfl, ?_, rfl, ?_, ?_, ?_, ?_, ?_⟩
  · simp only [reset_failed_items]
    rw [hcons]
    ring
  · exact countStatus_reset_failed st.items
  · exact countStatus_reset_success st.items
  · exact countStatus_reset_pending st.items
  · intro it hmem hne
    have : resetOne it = it := by
      unfold resetOne
      have : (it.status == "failed") = false := by simpa using hne
      rw [this]
      simp
    exact this ▸ List.mem_map_of_mem resetOne hmem
  · intro it hmem heq
    have : resetOne it =
        { it with status := "pending", retry_count := it.retry_count + 1 } := by
      unfold resetOne
      have : (it.status == "failed") = true := by simp [heq]
      rw [this]
      simp
    exact this ▸ List.mem_map_of_mem resetOne hmem

/-- Witness for C5 at a job with one failed and one successful item. -/
theorem claim5_reset_failed_items_witness :
    (reset_failed_items cexDoneSt).1 = countStatus "failed" cexDoneSt.items ∧
    (reset_failed_items cexDoneSt).2.job.status = "pending" ∧
    (reset_failed_items cexDoneSt).2.job.completed_at = none ∧
    (reset_failed_items cexDoneSt).2.job.completed_items =
      cexDoneSt.job.completed_items - (reset_failed_items cexDoneSt).1 ∧
    (reset_failed_items cexDoneSt).2.job.failed_items =
      cexDoneSt.job.failed_items - (reset_failed_items cexDoneSt).1 ∧
    (reset_failed_items cexDoneSt).2.job.successful_items =
      cexDoneSt.job.successful_items ∧
    countStatus "failed" (reset_failed_items cexDoneSt).2.items = 0 ∧
    countStatus "success" (reset_failed_items cexDoneSt).2.items =
      countStatus "success" cexDoneSt.items ∧
    countStatus "pending" (reset_failed_items cexDoneSt).2.items =
      countStatus "pending" cexDoneSt.items + (reset_failed_items cexDoneSt).1 ∧
    (∀ it ∈ cexDoneSt.items, it.status ≠ "failed" →
      it ∈ (reset_failed_items cexDoneSt).2.items) ∧
    (∀ it ∈ cexDoneSt.items, it.status = "failed" →
      ({ it with status := "pending", retry_count := it.retry_count + 1 } : JobItem) ∈
        (reset_failed_items cexDoneSt).2.items) :=
  claim5_reset_failed_items cexDoneSt (by decide)

/-! ## Claim C6 -/

/-- C6 is false on the code: a classified item whose task raises gets no
database write, so it is still pending while the job is nonetheless
marked completed — the raised fault is caught by the gather, hence the
run finishes without an unhandled whole-run fault. -/
theorem claim6_counterexample : ¬ claimC6 := by
  intro h
  have h6 := (h cexSt cexEnvFault "a" "b" "c" (by decide)).2.1 cexItem
    (by decide) rfl (by decide)
  rcases h6 with h6 | h6 <;> exact absurd h6 (by decide)

/-- C6 amended: after a run without a whole-run fault the job is always
completed; a pending classified item ends terminal when its task did not
raise, but stays pending when its task raised; unclassifiable pending
items stay pending. -/
theorem claim6_run_outcome (st : JobState) (env : Nat → ItemEnv) (t1 t2 t3 : String)
    (hnd : (itemIds st.items).Nodup) :
    (runJob st env t1 t2 t3).job.status = "completed" ∧
    (∀ it ∈ st.items, it.status = "pending" → ∀ l, laneOf it = some l →
      (env it.itemId).fault = none →
      (getStatus (runJob st env t1 t2 t3) it.itemId = some "success" ∨
        getStatus (runJob st env t1 t2 t3) it.itemId = some "failed")) ∧
    (∀ it ∈ st.items, it.status = "pending" → ∀ d, (env it.itemId).fault = some d →
      getStatus (runJob st env t1 t2 t3) it.itemId = some "pending") ∧
    (∀ it ∈ st.items, it.status = "pending" → laneOf it = none →
      getStatus (runJob st env t1 t2 t3) it.itemId = some "pending") := by
  have hrj : ∀ i, getStatus (runJob st env t1 t2 t3) i =
      getStatus (applyUpdates (runUpdates st env) t2 (start_job t1 st)) i :=
    fun i => rfl
  refine ⟨rfl, ?_, ?_, ?_⟩
  · intro it hmem hpend l hlane hfault
    obtain ⟨u, humem, hid, hst⟩ := run_upd_mem env hmem hpend hlane hfault
    have hcount1 : (runUpdates st env).countP (fun v => v.itemId == u.itemId) = 1 := by
      rw [hid]
      exact run_upd_count_one env hnd hmem hpend hlane hfault
    have hsome : (findItem (start_job t1 st).items u.itemId).isSome = true := by
      show (findItem st.items u.itemId).isSome = true
      rw [hid]
      exact List.find?_isSome.mpr ⟨it, hmem, by simp⟩
    have hfin := getStatus_applyUpdates_unique t2 (runUpdates st env)
      (start_job t1 st) u humem hcount1 hsome
    rw [hrj, ← hid, hfin]
    rcases hst with h | h
    · left; rw [h]
    · right; rw [h]
  · intro it hmem hpend d hfault
    have hz := run_upd_count_zero_of_fault env hnd hmem hfault
    have hne : ∀ v ∈ runUpdates st env, v.itemId ≠ it.itemId := by
      intro v hv
      simpa using List.countP_eq_zero.mp hz v hv
    rw [hrj, getStatus_applyUpdates_ne t2 (runUpdates st env) (start_job t1 st)
      it.itemId hne]
    show (findItem st.items it.itemId).map (fun x => x.status) = some "pending"
    rw [findItem_of_nodup hnd hmem]
    simp [hpend]
  · intro it hmem hpend hlane
    have hz := run_upd_count_zero_of_none env hnd hmem hlane
    have hne : ∀ v ∈ runUpdates st env, v.itemId ≠ it.itemId := by
      intro v hv
      simpa using List.countP_eq_zero.mp hz v hv
    rw [hrj, getStatus_applyUpdates_ne t2 (runUpdates st env) (start_job t1 st)
      it.itemId hne]
    show (findItem st.items it.itemId).map (fun x => x.status) = some "pending"
    rw [findItem_of_nodup hnd hmem]
    simp [hpend]

/-- Witness for C6 amended: a successful one-item run ends completed
with the item terminal. -/
theorem claim6_run_outcome_witness :
    (runJob cexSt cexEnvOk "a" "b" "c").job.status = "completed" ∧
    (getStatus (runJob cexSt cexEnvOk "a" "b" "c") 1 = some "success" ∨
      getStatus (runJob cexSt cexEnvOk "a" "b" "c") 1 = some "failed") :=
  ⟨(claim6_run_outcome cexSt cexEnvOk "a" "b" "c" (by decide)).1,
    (claim6_run_outcome cexSt cexEnvOk "a" "b" "c" (by decide)).2.1 cexItem
      (by decide) rfl Lane.oneClick (by decide) rfl⟩

/-! ## Claim C7 -/

/-- C7 is false on the code: a classified item whose task raises gets
zero update_item calls, not one — the write count for that item is 0. -/
theorem claim7_counterexample : ¬ claimC7 := by
  intro h
  have h7 := (h cexSt cexEnvFault (by decide) cexItem (by decide) rfl (by decide)).1
  exact absurd h7 (by decide)

/-- C7 amended: a pending classified item gets exactly one update_item
call when its task does not raise, and zero when it raises; a raised
task is caught and converted to an Unknown/error entry among the
results, leaving every other item's count untouched (the count statement
holds for each item independently of its siblings' faults). -/
theorem claim7_update_isolation (st : JobState) (env : Nat → ItemEnv)
    (hnd : (itemIds st.items).Nodup) :
    ∀ it ∈ st.items, it.status = "pending" → ∀ l, laneOf it = some l →
      ((env it.itemId).fault = none →
        (runUpdates st env).countP (fun u => u.itemId == it.itemId) = 1) ∧
      (∀ d, (env it.itemId).fault = some d →
        (runUpdates st env).countP (fun u => u.itemId == it.itemId) = 0 ∧
        ({ sender := "Unknown", success := false, method := "error",
            message := d.take 50 } : ResultEntry) ∈ runResults st env) := by
  intro it hmem hpend l hlane
  constructor
  · intro hfault
    exact run_upd_count_one env hnd hmem hpend hlane hfault
  · intro d hfault
    exact ⟨run_upd_count_zero_of_fault env hnd hmem hfault,
      run_error_entry_mem env hmem hpend hlane hfault⟩

/-- Witness for C7 amended: one write for the clean run, zero plus a
converted error entry for the raising run. -/
theorem claim7_update_isolation_witness :
    (runUpdates cexSt cexEnvOk).countP (fun u => u.itemId == 1) = 1 ∧
    (runUpdates cexSt cexEnvFault).countP (fun u => u.itemId == 1) = 0 ∧
    ({ sender := "Unknown", success := false, method := "error",
        message := "boom".take 50 } : ResultEntry) ∈ runResults cexSt cexEnvFault :=
  ⟨(claim7_update_isolation cexSt cexEnvOk (by decide) cexItem (by decide) rfl
      Lane.oneClick (by decide)).1 rfl,
    ((claim7_update_isolation cexSt cexEnvFault (by decide) cexItem (by decide) rfl
      Lane.oneClick (by decide)).2 "boom" rfl).1,
    ((claim7_update_isolation cexSt cexEnvFault (by decide) cexItem (by decide) rfl
      Lane.oneClick (by decide)).2 "boom" rfl).2⟩

/-! ## Claim C8 -/

/-- C8: retrying a job whose status is running is rejected with a
conflict — the persisted state is returned unchanged, no reset happens
and no run is scheduled, so no item write occurs for the request. -/
theorem claim8_running_conflict (st : JobState) (h : st.job.status = "running") :
    retry_job (some st) = (RetryResp.conflict, some st, false) := by
  simp [retry_job, h]

/-- Witness for C8 at a concrete running job. -/
theorem claim8_running_conflict_witness :
    retry_job (some (start_job "t1" cexSt)) =
      (RetryResp.conflict, some (start_job "t1" cexSt), false) :=
  claim8_running_conflict (start_job "t1" cexSt) rfl

/-! ## Claim C9 -/

theorem attemptDecision_eq_error {o : AttemptOut} (h : transientOut o) :
    attemptDecision o = .error (errOf o) := by
  cases o with
  | status n =>
      unfold transientOut at h
      simp only [attemptDecision, errOf]
      rw [if_neg (by omega), if_neg (by omega), if_pos h]
  | timeout => rfl
  | netError m => rfl

theorem oneClickGo_succ (att : Nat → AttemptOut) (attempt r : Nat) :
    oneClickGo att attempt (r + 1) =
      match attemptDecision (att attempt) with
      | .ok res => (res, [])
      | .error _ =>
          ((oneClickGo att (attempt + 1) r).1,
            ((3 / 2 : ℚ) ^ attempt) :: (oneClickGo att (attempt + 1) r).2) := rfl

theorem oneClickGo_zero (att : Nat → AttemptOut) (attempt : Nat) :
    oneClickGo att attempt 0 =
      (match attemptDecision (att attempt) with
        | .ok res => res
        | .error e => (false, e), []) := rfl

/-- C9 is false on the code: a 300 response is a 3xx status, yet the
strategy fails immediately — only 301, 302, 303, 307 and 308 succeed. -/
theorem claim9_counterexample : ¬ claimC9 := by
  intro h
  have h9 := h 300 (by norm_num) (by norm_num) (fun _ => AttemptOut.status 300) rfl
  exact absurd h9 (by decide)

/-- C9 amended: success exactly on a first-decisive 200, 202, 204 or one
of the redirect statuses 301, 302, 303, 307, 308; any other sub-500
status (all 4xx, and also 300, 304, 305, 306) fails immediately with no
retry and no sleep; three transient outcomes (5xx, timeout, transport
fault) exhaust the two retries, sleeping 1.5 to the power attempt before
each retry, and return failure with the last attempt's error. -/
theorem claim9_one_click_http (att : Nat → AttemptOut) :
    (∀ n, att 0 = AttemptOut.status n → (n = 200 ∨ n = 202 ∨ n = 204) →
      async_one_click_unsubscribe att =
        ((true, "Success (HTTP " ++ toString n ++ ")"), [])) ∧
    (∀ n, att 0 = AttemptOut.status n →
      (n = 301 ∨ n = 302 ∨ n = 303 ∨ n = 307 ∨ n = 308) →
      async_one_click_unsubscribe att = ((true, "Success (redirected)"), [])) ∧
    (∀ n, att 0 = AttemptOut.status n → n < 500 →
      ¬(n = 200 ∨ n = 202 ∨ n = 204 ∨ n = 301 ∨ n = 302 ∨ n = 303 ∨ n = 307 ∨ n = 308) →
      async_one_click_unsubscribe att = ((false, "HTTP " ++ toString n), [])) ∧
    (transientOut (att 0) → transientOut (att 1) → transientOut (att 2) →
      async_one_click_unsubscribe att =
        ((false, errOf (att 2)), [(3 / 2 : ℚ) ^ 0, (3 / 2 : ℚ) ^ 1])) := by
  refine ⟨?_, ?_, ?_, ?_⟩
  · intro n h0 hn
    have hd : attemptDecision (att 0) =
        .ok (true, "Success (HTTP " ++ toString n ++ ")") := by
      rw [h0]
      simp only [attemptDecision]
      rw [if_pos hn]
    show oneClickGo att 0 (1 + 1) = _
    rw [oneClickGo_succ, hd]
  · intro n h0 hn
    have hd : attemptDecision (att 0) = .ok (true, "Success (redirected)") := by
      rw [h0]
      simp only [attemptDecision]
      rw [if_neg (by omega), if_pos hn]
    show oneClickGo att 0 (1 + 1) = _
    rw [oneClickGo_succ, hd]
  · intro n h0 hlt hn
    have hd : attemptDecision (att 0) = .ok (false, "HTTP " ++ toString n) := by
      rw [h0]
      simp only [attemptDecision]
      rw [if_neg (by omega), if_neg (by omega), if_neg (by omega)]
    show oneClickGo att 0 (1 + 1) = _
    rw [oneClickGo_succ, hd]
  · intro ht0 ht1 ht2
    have hd0 := attemptDecision_eq_error ht0
    have hd1 := attemptDecision_eq_error ht1
    have hd2 := attemptDecision_eq_error ht2
    have s3 : oneClickGo att 2 0 = ((false, errOf (att 2)), []) := by
      rw [oneClickGo_zero, hd2]
    have s2 : oneClickGo att 1 1 =
        ((oneClickGo att 2 0).1, ((3 / 2 : ℚ) ^ (1 : Nat)) :: (oneClickGo att 2 0).2) := by
      show oneClickGo att 1 (0 + 1) = _
      rw [oneClickGo_succ, hd1]
    have s1 : oneClickGo att 0 2 =
        ((oneClickGo att 1 1).1, ((3 / 2 : ℚ) ^ (0 : Nat)) :: (oneClickGo att 1 1).2) := by
      show oneClickGo att 0 (1 + 1) = _
      rw [oneClickGo_succ, hd0]
    show oneClickGo att 0 2 = _
    rw [s1, s2, s3]

/-- Witness for C9 amended: the four behaviours at concrete attempt
streams. -/
theorem claim9_one_click_http_witness :
    async_one_click_unsubscribe (fun _ => AttemptOut.status 200) =
      ((true, "Success (HTTP " ++ toString 200 ++ ")"), []) ∧
    async_one_click_unsubscribe (fun _ => AttemptOut.status 302) =
      ((true, "Success (redirected)"), []) ∧
    async_one_click_unsubscribe (fun _ => AttemptOut.status 404) =
      ((false, "HTTP " ++ toString 404), []) ∧
    async_one_click_unsubscribe (fun _ => AttemptOut.status 503) =
      ((false, errOf (AttemptOut.status 503)), [(3 / 2 : ℚ) ^ 0, (3 / 2 : ℚ) ^ 1]) :=
  ⟨(claim9_one_click_http (fun _ => AttemptOut.status 200)).1 200 rfl (by norm_num),
    (claim9_one_click_http (fun _ => AttemptOut.status 302)).2.1 302 rfl (by norm_num),
    (claim9_one_click_http (fun _ => AttemptOut.status 404)).2.2.1 404 rfl
      (by norm_num) (by norm_num),
    (claim9_one_click_http (fun _ => AttemptOut.status 503)).2.2.2
      (by norm_num [transientOut]) (by norm_num [transientOut])
      (by norm_num [transientOut])⟩

/-! ## Claim C10 -/

/-- C10: a job identifier not present in the store yields the fixed
snapshot with running false, progress 0, total 0, empty results, and no
job_id key — not an error. -/
theorem claim10_missing_job_snapshot (store : List JobState) (jobId : String)
    (h : ∀ s ∈ store, s.job.id ≠ jobId) :
    get_job_status store jobId =
      { running := false, progress := 0, total := 0, results := [], job_id := none } := by
  have hfind : get_job store jobId = none := by
    unfold get_job
    refine List.find?_eq_none.mpr ?_
    intro s hs
    simp [h s hs]
  unfold get_job_status
  rw [hfind]

/-- Witness for C10 on a nonempty store and an absent identifier. -/
theorem claim10_missing_job_snapshot_witness :
    get_job_status [cexDoneSt] "nope" =
      { running := false, progress := 0, total := 0, results := [], job_id := none } :=
  claim10_missing_job_snapshot [cexDoneSt] "nope" (by decide)

end GmailUnsub
